import Mathlib

/-!
Verification development for the session-orchestration layer of
aitofy-dev/browser-profiles (the chrome-launcher module in
src/src/integrations/playwright.ts, middle document, together with
src/src/profile-manager.ts).

The TypeScript code is shallowly embedded: every external effect
(filesystem, process spawn, HTTP probe, CDP call, proxy-chain call)
is represented either as explicit state in a `World` record or as an
entry in an environment record `Env` that fixes the outcome the
external collaborator would have produced, and each observable action
is appended to an effect trace.  Control flow, branch conditions and
the order of emitted effects follow the source line by line.
-/

namespace BProfiles

/-- Proxy scheme, from the `type` field of `ProxyConfig` (types document). -/
inductive ProxyType where
  | http
  | https
  | socks5
deriving DecidableEq, Repr

/-- Embedding of `ProxyConfig` (types document): scheme, host, port and
optional credentials. -/
structure ProxyConfig where
  ptype : ProxyType
  host : String
  port : Nat
  username : Option String := none
  password : Option String := none
deriving DecidableEq, Repr

/-- Embedding of `FingerprintConfig` (the fields read by `launchChrome`). -/
structure FingerprintConfig where
  userAgent : Option String := none
  language : Option String := none
  platform : Option String := none
  hardwareConcurrency : Option Nat := none
  deviceMemory : Option Nat := none
deriving DecidableEq, Repr

/-- Embedding of `ProfileCookie` (the fields that drive control flow in
`launchChrome`; the remaining optional attributes are defaulted inside the
CDP call and do not influence any branch). -/
structure ProfileCookie where
  name : String
  value : String
  domain : String
deriving DecidableEq, Repr

/-- Embedding of `StoredProfile` (the fields `launchChrome` reads). -/
structure StoredProfile where
  id : String
  name : String
  proxy : Option ProxyConfig := none
  timezone : Option String := none
  fingerprint : Option FingerprintConfig := none
  cookies : List ProfileCookie := []
deriving DecidableEq, Repr

/-- Embedding of `BrowserLockInfo` (playwright.ts lines 347-353): the
on-disk Session Descriptor. -/
structure BrowserLockInfo where
  pid : Nat
  port : Nat
  wsEndpoint : String
  startedAt : Nat
  proxyUrl : Option String := none
deriving DecidableEq, Repr

/-- State of the `.browser-lock.json` file in a profile data directory:
absent, present but unreadable (`fs.readFileSync` throws), present but
malformed (`JSON.parse` throws), or present and valid. -/
inductive LockFileState where
  | absent
  | unreadable
  | malformed
  | valid (info : BrowserLockInfo)
deriving DecidableEq, Repr

/-- Embedding of `readLockFile` (playwright.ts lines 370-381): `existsSync`
false gives null; a read error or a parse error is caught and gives null;
otherwise the parsed descriptor is returned.  The function is total: every
exception of the source is caught inside it. -/
def readLockFile : LockFileState → Option BrowserLockInfo
  | .absent => none
  | .unreadable => none
  | .malformed => none
  | .valid info => some info

/-- Embedding of `deleteLockFile` (playwright.ts lines 386-395): when the
file exists, `fs.unlinkSync` is attempted; an unlink error (`unlinkOk =
false`) is caught and leaves the file in place; absence is not an error.
Total: every exception of the source is caught inside it. -/
def deleteLockFile (unlinkOk : Bool) : LockFileState → LockFileState
  | .absent => .absent
  | .unreadable => if unlinkOk then .absent else .unreadable
  | .malformed => if unlinkOk then .absent else .malformed
  | .valid info => if unlinkOk then .absent else .valid info

/-- Outcome of the bounded-time `fetch` issued by `tryConnectExisting`
against `http://localhost:port/json/version`: network error or timeout,
non-OK HTTP status, OK body without `webSocketDebuggerUrl`, or OK body
with the current endpoint address. -/
inductive ProbeResult where
  | netError
  | notOk (status : Nat)
  | okNoWs
  | okWs (wsUrl : String)
deriving DecidableEq, Repr

/-- The value `tryConnectExisting` resolves with on success. -/
structure ExistingConn where
  wsEndpoint : String
  pid : Nat
  port : Nat
deriving DecidableEq, Repr

/-- Embedding of `tryConnectExisting` (playwright.ts lines 413-457): any
network error, non-OK status or missing `webSocketDebuggerUrl` yields null
(every exception is caught); on success the probed (current) endpoint
address is combined with the descriptor's pid and port. -/
def tryConnectExisting (probe : ProbeResult) (lockInfo : BrowserLockInfo) :
    Option ExistingConn :=
  match probe with
  | .netError => none
  | .notOk _ => none
  | .okNoWs => none
  | .okWs url => some ⟨url, lockInfo.pid, lockInfo.port⟩

/-- The value of `os.platform()` as far as `getChromePath` branches on it. -/
inductive OSKind where
  | darwin
  | win32
  | linux
  | other
deriving DecidableEq, Repr

/-- JavaScript truthiness of an optional string: `undefined` and the empty
string are falsy. -/
def strTruthy : Option String → Bool
  | some s => s != ""
  | none => false

/-- JavaScript `a || b` on optional strings, normalising a falsy result
to `none`. -/
def jsOr (a b : Option String) : Option String :=
  if strTruthy a then a else if strTruthy b then b else none

/-- The candidate list contributed by an optional string under JavaScript
truthiness: empty when unset or empty. -/
def truthyToList : Option String → List String
  | some s => if s = "" then [] else [s]
  | none => []

/-- JavaScript `o || d` where `o` is an optional string and `d` a default. -/
def jsOrStr (o : Option String) (d : String) : String :=
  match o with
  | some s => if s = "" then d else s
  | none => d

/-- The macOS candidate list of `getChromePath` (playwright.ts 478-482). -/
def macChromePaths (home : String) : List String :=
  ["/Applications/Google Chrome.app/Contents/MacOS/Google Chrome",
   "/Applications/Chromium.app/Contents/MacOS/Chromium",
   home ++ "/Applications/Google Chrome.app/Contents/MacOS/Google Chrome"]

/-- The Windows candidate list of `getChromePath` (playwright.ts 489-493). -/
def winChromePaths (home : String) : List String :=
  ["C:\\Program Files\\Google\\Chrome\\Application\\chrome.exe",
   "C:\\Program Files (x86)\\Google\\Chrome\\Application\\chrome.exe",
   home ++ "\\AppData\\Local\\Google\\Chrome\\Application\\chrome.exe"]

/-- The Linux candidate list of `getChromePath` (playwright.ts 500-506). -/
def linuxChromePaths : List String :=
  ["/usr/bin/google-chrome",
   "/usr/bin/google-chrome-stable",
   "/usr/bin/chromium",
   "/usr/bin/chromium-browser",
   "/snap/bin/chromium"]

/-- Platform-specific well-known install locations, selected exactly as the
three platform `if` blocks of `getChromePath` do. -/
def platformChromePaths (k : OSKind) (home : String) : List String :=
  match k with
  | .darwin => macChromePaths home
  | .win32 => winChromePaths home
  | .linux => linuxChromePaths
  | .other => []

/-- The platform-defaults tail of `getChromePath` (playwright.ts 474-514):
the first existing candidate, else the Chrome-not-found error. -/
def getChromePathPlatform (fsEx : String → Bool) (k : OSKind) (home : String) :
    Except Unit String :=
  match (platformChromePaths k home).find? fsEx with
  | some p => .ok p
  | none => .error ()

/-- Embedding of `getChromePath` (playwright.ts lines 462-515).
`fsEx` plays `fs.existsSync`; `envChromium` and `envChrome` are
`process.env.CHROMIUM_PATH` and `process.env.CHROME_PATH`.  Step 2 computes
`envPath = CHROMIUM_PATH || CHROME_PATH` first and only then tests
existence of that single value — exactly as the source does. -/
def getChromePath (fsEx : String → Bool) (envChromium envChrome : Option String)
    (k : OSKind) (home : String) (customPath : Option String) :
    Except Unit String :=
  if strTruthy customPath && fsEx (customPath.getD "") then
    .ok (customPath.getD "")
  else
    match jsOr envChromium envChrome with
    | some e => if fsEx e then .ok e else getChromePathPlatform fsEx k home
    | none => getChromePathPlatform fsEx k home

/-- Candidate list as the SPEC words it (spec section 4.3 step 1 and claim
C9): explicit override, then CHROMIUM_PATH, then CHROME_PATH, then the
platform locations, each an independent candidate. -/
def chromePathSpecCandidates (envChromium envChrome : Option String)
    (k : OSKind) (home : String) (customPath : Option String) : List String :=
  customPath.toList ++ envChromium.toList ++ envChrome.toList ++
    platformChromePaths k home

/-- Modelled from the spec (claim C9's wording, not the source): resolution
returns the first candidate of `chromePathSpecCandidates` that exists on
disk, and fails with Chrome-not-found otherwise. -/
def getChromePathSpec (fsEx : String → Bool) (envChromium envChrome : Option String)
    (k : OSKind) (home : String) (customPath : Option String) :
    Except Unit String :=
  match (chromePathSpecCandidates envChromium envChrome k home customPath).find? fsEx with
  | some p => .ok p
  | none => .error ()

/-- Geolocation fields of interest in the ip-api.com response body, plus the
fetch-failure case (any exception of `detectTimezoneFromIP` is caught). -/
inductive GeoApiResult where
  | fetchError
  | response (status country regionName city timezone : String)
deriving DecidableEq, Repr

/-- The record `detectTimezoneFromIP` resolves with on success. -/
structure GeoInfo where
  timezone : String
  country : String
  city : String
  region : String
deriving DecidableEq, Repr

/-- Embedding of `detectTimezoneFromIP` (playwright.ts lines 536-565): a
fetch or parse error is caught and gives null; a body whose `status` field
is not the string success gives null; otherwise the geo record. -/
def detectTimezoneFromIP : GeoApiResult → Option GeoInfo
  | .fetchError => none
  | .response st c r city tz =>
    if st = "success" then some ⟨tz, c, city, r⟩ else none

/-- Embedding of `autoDetectTimezone` (playwright.ts lines 572-579):
detected timezone, else the fixed default. -/
def autoDetectTimezone (r : GeoApiResult) : String :=
  match detectTimezoneFromIP r with
  | some g => g.timezone
  | none => "America/New_York"

/-- The pid and debug port of a spawned browser process
(`chromeLauncher.launch` resolution value). -/
structure ChromeProc where
  pid : Nat
  port : Nat
deriving DecidableEq, Repr

/-- One observable action of the orchestration layer, in program order. -/
inductive Effect where
  | deleteLock
  | cleanSingletons
  | acquireProxyLease (url : String)
  | releaseProxyLease (url : String)
  | spawnProcess (pid : Nat) (port : Nat) (tzEnv : String)
  | killProcess (pid : Nat)
  | enableNetwork
  | setUserAgentOverride (userAgent plat acceptLanguage : String)
  | injectProtectionScript
  | setTimezoneOverride (timezoneId : String)
  | setCookie (name : String) (ok : Bool)
  | registryPut (profileId : String)
  | registryDelete (profileId : String)
  | writeLock (info : BrowserLockInfo)
  | cdpClose
deriving DecidableEq, Repr

/-- An entry of the module-level `runningBrowsers` map (playwright.ts line
342): the spawned process and the anonymized proxy url, if any. -/
structure RegEntry where
  pid : Nat
  proxyUrl : Option String
deriving DecidableEq, Repr

/-- Observable state of one profile's session resources: the lock file in
its data directory, the module-level `runningBrowsers` registry, the set of
live browser processes and the set of live anonymized proxy servers. -/
structure World where
  lock : LockFileState
  registry : List (String × RegEntry)
  alive : List Nat
  leases : List String
deriving DecidableEq, Repr

/-- `Map.get` over the registry association list. -/
def regLookup (r : List (String × RegEntry)) (id : String) : Option RegEntry :=
  (r.find? (fun e => e.fst == id)).map (fun e => e.snd)

/-- `Map.delete` over the registry association list. -/
def regErase (r : List (String × RegEntry)) (id : String) :
    List (String × RegEntry) :=
  r.filter (fun e => e.fst != id)

/-- `Map.set` over the registry association list. -/
def regPut (r : List (String × RegEntry)) (id : String) (e : RegEntry) :
    List (String × RegEntry) :=
  (id, e) :: regErase r id

/-- Outcomes of the external collaborators consulted during one
`launchChrome` call; each field fixes what the corresponding await would
have produced. -/
structure Env where
  fsExists : String → Bool
  envChromium : Option String := none
  envChrome : Option String := none
  osKind : OSKind := .linux
  homedir : String := "/root"
  probe : ProbeResult := .netError
  unlinkOk : Bool := true
  anonymizeResult : Except String String := .error "no proxy configured"
  geoApi : GeoApiResult := .fetchError
  systemTimezone : String := "Etc/UTC"
  spawnResult : Except String ChromeProc := .error "spawn failed"
  cdpConnectOk : Nat → Bool := fun _ => true
  cookieOk : Nat → Bool := fun _ => true
  wsProbe : Nat → Option String := fun _ => none
  cleanupKillOk : Bool := true
  writeOk : Bool := true
  now : Nat := 0

/-- The CDP connect retry budget of `launchChrome`
(playwright.ts line 781, `cdpMaxRetries`). -/
def cdpMaxRetries : Nat := 10

/-- The fixed CDP connect retry delay in milliseconds
(playwright.ts line 782, `cdpRetryDelay`). -/
def cdpRetryDelayMs : Nat := 300

/-- The endpoint-discovery retry budget of `launchChrome`
(playwright.ts line 877, `maxRetries`). -/
def wsMaxRetries : Nat := 10

/-- The fixed endpoint-discovery retry delay in milliseconds
(playwright.ts line 878, `retryDelay`). -/
def wsRetryDelayMs : Nat := 200

/-- The bounded CDP retry loop (playwright.ts lines 784-803): attempts are
numbered from `start`; the first attempt on which `ok` holds is returned;
`fuel` remaining attempts. -/
def findAttempt (ok : Nat → Bool) : Nat → Nat → Option Nat
  | 0, _ => none
  | fuel + 1, i => if ok i then some i else findAttempt ok fuel (i + 1)

/-- The bounded endpoint-discovery loop (playwright.ts lines 880-896): an
attempt yields the advertised `webSocketDebuggerUrl` or fails (non-OK
response, missing field, or fetch error all continue the loop). -/
def findProbe (f : Nat → Option String) : Nat → Nat → Option String
  | 0, _ => none
  | fuel + 1, i =>
    match f i with
    | some s => some s
    | none => findProbe f fuel (i + 1)

/-- The hard-coded fallback user agent of `launchChrome`
(playwright.ts lines 811-812). -/
def defaultUserAgent : String :=
  "Mozilla/5.0 (Windows NT 10.0; Win64; x64) AppleWebKit/537.36 (KHTML, like Gecko) Chrome/120.0.0.0 Safari/537.36"

/-- `profile.fingerprint?.userAgent || defaultUserAgent` (line 811). -/
def fpUserAgent (p : StoredProfile) : String :=
  jsOrStr (p.fingerprint.bind (fun f => f.userAgent)) defaultUserAgent

/-- `profile.fingerprint?.platform || Win32` (line 813). -/
def fpPlatform (p : StoredProfile) : String :=
  jsOrStr (p.fingerprint.bind (fun f => f.platform)) "Win32"

/-- `profile.fingerprint?.language || en-US` (line 814). -/
def fpLanguage (p : StoredProfile) : String :=
  jsOrStr (p.fingerprint.bind (fun f => f.language)) "en-US"

/-- The argument of `Emulation.setTimezoneOverride` (playwright.ts lines
852-854): `profile.timezone || America/New_York` — note this is the raw
profile field, not the timezone resolved for the TZ environment variable. -/
def tzOverrideId (p : StoredProfile) : String :=
  jsOrStr p.timezone "America/New_York"

/-- Embedding of the timezone auto-detection block of `launchChrome`
(playwright.ts lines 736-752): the explicit profile value if truthy, else
(when a proxy is configured) the timezone from the geo lookup if the lookup
succeeds with a truthy timezone, else the system timezone.  This value is
passed to the spawned process as the TZ environment variable (line 764). -/
def resolveTimezone (p : StoredProfile) (geoApi : GeoApiResult)
    (sysTz : String) : String :=
  if strTruthy p.timezone then p.timezone.getD "" else
    let fromGeo : Option String :=
      match p.proxy with
      | some _ =>
        match detectTimezoneFromIP geoApi with
        | some g => if g.timezone = "" then none else some g.timezone
        | none => none
      | none => none
    match fromGeo with
    | some t => t
    | none => sysTz

/-- The CDP effects of the per-cookie preseeding loop (playwright.ts lines
857-873): one `Network.setCookie` per cookie, in list order; the `ok` flag
records whether the individual call succeeded — a failure is swallowed by
the attached catch and does not stop the loop. -/
def cookieEffects (p : StoredProfile) (cookieOk : Nat → Bool) : List Effect :=
  p.cookies.enum.map (fun ic => .setCookie ic.snd.name (cookieOk ic.fst))

/-- The configuration pipeline of `launchChrome` after the CDP connection
succeeds (playwright.ts lines 805-873), in program order:
`Network.enable`, `Network.setUserAgentOverride`,
`Page.addScriptToEvaluateOnNewDocument`, `Emulation.setTimezoneOverride`,
then the cookie loop. -/
def configEffects (p : StoredProfile) (cookieOk : Nat → Bool) : List Effect :=
  [.enableNetwork,
   .setUserAgentOverride (fpUserAgent p) (fpPlatform p) (fpLanguage p),
   .injectProtectionScript,
   .setTimezoneOverride (tzOverrideId p)]
  ++ cookieEffects p cookieOk

/-- The launch options `launchChrome` branches on (remaining members of
`ChromeLaunchOptions` only shape flag strings). -/
structure LaunchOpts where
  chromePath : Option String := none
  headless : Bool := false

/-- The error taxonomy of a `launchChrome` call, one constructor per throw
site. -/
inductive LaunchError where
  | chromeNotFound
  | proxyError (msg : String)
  | launchFailed (msg : String)
  | cdpConnectFailed
  | wsEndpointFailed
deriving DecidableEq, Repr

/-- The data captured by the close closure a `launchChrome` call returns:
either the fresh-launch closure (playwright.ts lines 925-946) or the
reuse-path closure (lines 606-621). -/
inductive CloseData where
  | fresh (pid : Nat) (anonymizedProxyUrl : Option String) (profileId : String)
  | reuse (pid : Nat) (lockProxyUrl : Option String) (profileId : String)
deriving DecidableEq, Repr

/-- Embedding of `LaunchResult`: the Session Handle. -/
structure Handle where
  wsEndpoint : String
  pid : Nat
  port : Nat
  profileId : String
  closeData : CloseData
deriving DecidableEq, Repr

instance {ε α : Type} [DecidableEq ε] [DecidableEq α] :
    DecidableEq (Except ε α) := fun a b =>
  match a, b with
  | .ok x, .ok y =>
    if h : x = y then isTrue (by rw [h]) else isFalse (by simp [h])
  | .error x, .error y =>
    if h : x = y then isTrue (by rw [h]) else isFalse (by simp [h])
  | .ok _, .error _ => isFalse (by simp)
  | .error _, .ok _ => isFalse (by simp)

/-- Result, final state and effect trace of one `launchChrome` call. -/
structure LaunchOutcome where
  result : Except LaunchError Handle
  world : World
  effects : List Effect
deriving DecidableEq, Repr

/-- The fresh-launch path of `launchChrome` from the spawn onwards
(playwright.ts lines 733-955), entered with the effects accumulated so far
and the anonymized proxy url when a Proxy Lease was acquired. -/
def launchSpawn (env : Env) (profile : StoredProfile) (w : World)
    (effs : List Effect) (lease : Option String) : LaunchOutcome :=
  let wLease : World :=
    match lease with
    | some u => { w with leases := u :: w.leases }
    | none => w
  let tz := resolveTimezone profile env.geoApi env.systemTimezone
  match env.spawnResult with
  | .error m =>
    match lease with
    | some u =>
      ⟨.error (.launchFailed m),
       { wLease with leases := wLease.leases.filter (fun x => x ≠ u) },
       effs ++ [.releaseProxyLease u]⟩
    | none => ⟨.error (.launchFailed m), wLease, effs⟩
  | .ok proc =>
    let wSpawn : World := { wLease with alive := proc.pid :: wLease.alive }
    let effs1 := effs ++ [.spawnProcess proc.pid proc.port tz]
    match findAttempt env.cdpConnectOk cdpMaxRetries 0 with
    | none =>
      if env.cleanupKillOk then
        let w1 : World :=
          { wSpawn with alive := wSpawn.alive.filter (fun x => x ≠ proc.pid) }
        match lease with
        | some u =>
          ⟨.error .cdpConnectFailed,
           { w1 with leases := w1.leases.filter (fun x => x ≠ u) },
           effs1 ++ [.killProcess proc.pid, .releaseProxyLease u]⟩
        | none =>
          ⟨.error .cdpConnectFailed, w1, effs1 ++ [.killProcess proc.pid]⟩
      else
        ⟨.error .cdpConnectFailed, wSpawn, effs1 ++ [.killProcess proc.pid]⟩
    | some _ =>
      let effs2 := effs1 ++ configEffects profile env.cookieOk
      match findProbe env.wsProbe wsMaxRetries 0 with
      | none =>
        if env.cleanupKillOk then
          let w1 : World :=
            { wSpawn with alive := wSpawn.alive.filter (fun x => x ≠ proc.pid) }
          match lease with
          | some u =>
            ⟨.error .wsEndpointFailed,
             { w1 with leases := w1.leases.filter (fun x => x ≠ u) },
             effs2 ++ [.killProcess proc.pid, .releaseProxyLease u]⟩
          | none =>
            ⟨.error .wsEndpointFailed, w1, effs2 ++ [.killProcess proc.pid]⟩
        else
          ⟨.error .wsEndpointFailed, wSpawn, effs2 ++ [.killProcess proc.pid]⟩
      | some ws =>
        let info : BrowserLockInfo := ⟨proc.pid, proc.port, ws, env.now, lease⟩
        ⟨.ok ⟨ws, proc.pid, proc.port, profile.id,
              .fresh proc.pid lease profile.id⟩,
         { wSpawn with
           registry := regPut wSpawn.registry profile.id ⟨proc.pid, lease⟩,
           lock := if env.writeOk then .valid info else wSpawn.lock },
         effs2 ++ [.registryPut profile.id, .writeLock info]⟩

/-- The fresh-launch path of `launchChrome` (playwright.ts lines 637-955):
singleton-marker cleanup, executable resolution, optional Proxy Lease
acquisition, then `launchSpawn`. -/
def launchFresh (env : Env) (opts : LaunchOpts) (profile : StoredProfile)
    (w : World) : LaunchOutcome :=
  let effs0 : List Effect := [.cleanSingletons]
  match getChromePath env.fsExists env.envChromium env.envChrome env.osKind
      env.homedir opts.chromePath with
  | .error _ => ⟨.error .chromeNotFound, w, effs0⟩
  | .ok _exePath =>
    match profile.proxy with
    | some _ =>
      match env.anonymizeResult with
      | .error e => ⟨.error (.proxyError e), w, effs0⟩
      | .ok url =>
        launchSpawn env profile w (effs0 ++ [.acquireProxyLease url]) (some url)
    | none => launchSpawn env profile w effs0 none

/-- Embedding of `launchChrome` (playwright.ts lines 592-955): read the
Session Descriptor; if present, probe it — on a live answer return a reuse
handle built from the probed endpoint and the descriptor's pid and port,
spawning nothing; on a dead answer delete the stale descriptor and fall
through to the fresh-launch path; with no descriptor go straight to the
fresh-launch path. -/
def launchChrome (env : Env) (opts : LaunchOpts) (profile : StoredProfile)
    (w : World) : LaunchOutcome :=
  match readLockFile w.lock with
  | some info =>
    match tryConnectExisting env.probe info with
    | some ex =>
      ⟨.ok ⟨ex.wsEndpoint, ex.pid, ex.port, profile.id,
            .reuse ex.pid info.proxyUrl profile.id⟩, w, []⟩
    | none =>
      let o := launchFresh env opts profile
        { w with lock := deleteLockFile env.unlinkOk w.lock }
      ⟨o.result, o.world, .deleteLock :: o.effects⟩
  | none => launchFresh env opts profile w

/-- Outcomes of the external calls a teardown issues: `client.close`
(rejection swallowed by its own catch), `chromeProcess.kill` /
`process.kill` (a rejection reaches the surrounding handler),
`proxyChain.closeAnonymizedProxy` (rejection swallowed by its own catch)
and `fs.unlinkSync` inside `deleteLockFile` (caught there). -/
structure CloseEnv where
  killOk : Bool := true
  proxyCloseOk : Bool := true
  unlinkOk : Bool := true
deriving DecidableEq, Repr

/-- Embedding of the close closure a fresh launch returns (playwright.ts
lines 925-946).  The whole body sits in one try/catch whose catch only
logs, so the function never throws; `client.close` and
`closeAnonymizedProxy` additionally carry their own catch, but
`chromeProcess.kill` does not — if it rejects, control jumps to the outer
catch and the proxy release, the registry removal and the descriptor
deletion are all skipped. -/
def freshClose (cenv : CloseEnv) (pid : Nat) (proxyUrl : Option String)
    (profileId : String) (w : World) : World × List Effect :=
  let effs0 : List Effect := [.cdpClose]
  if cenv.killOk then
    let w1 : World := { w with alive := w.alive.filter (fun x => x ≠ pid) }
    let step3 : World × List Effect :=
      match proxyUrl with
      | some u =>
        ({ w1 with leases :=
             if cenv.proxyCloseOk then w1.leases.filter (fun x => x ≠ u)
             else w1.leases },
         [.releaseProxyLease u])
      | none => (w1, [])
    let w3 : World :=
      { step3.fst with
        registry := regErase step3.fst.registry profileId,
        lock := deleteLockFile cenv.unlinkOk step3.fst.lock }
    (w3, effs0 ++ [.killProcess pid] ++ step3.snd
           ++ [.registryDelete profileId, .deleteLock])
  else
    (w, effs0 ++ [.killProcess pid])

/-- Embedding of the close closure the reuse path returns (playwright.ts
lines 606-621): inside one try/catch, kill the pid if it is still running,
delete the lock file, remove the registry entry, then close the proxy
stored in the lock (with its own catch).  A kill rejection jumps to the
outer catch and skips the remaining steps. -/
def reuseClose (cenv : CloseEnv) (pid : Nat) (lockProxyUrl : Option String)
    (profileId : String) (w : World) : World × List Effect :=
  if w.alive.contains pid && !cenv.killOk then
    (w, [.killProcess pid])
  else
    let killed := w.alive.contains pid
    let w1 : World :=
      if killed then { w with alive := w.alive.filter (fun x => x ≠ pid) }
      else w
    let effs1 : List Effect := if killed then [.killProcess pid] else []
    let w2 : World :=
      { w1 with
        lock := deleteLockFile cenv.unlinkOk w1.lock,
        registry := regErase w1.registry profileId }
    let step4 : World × List Effect :=
      match lockProxyUrl with
      | some u =>
        ({ w2 with leases :=
             if cenv.proxyCloseOk then w2.leases.filter (fun x => x ≠ u)
             else w2.leases },
         [.releaseProxyLease u])
      | none => (w2, [])
    (step4.fst, effs1 ++ [.deleteLock, .registryDelete profileId] ++ step4.snd)

/-- Dispatch on the close closure carried by a Session Handle. -/
def closeHandle (cenv : CloseEnv) (cd : CloseData) (w : World) :
    World × List Effect :=
  match cd with
  | .fresh pid purl id => freshClose cenv pid purl id w
  | .reuse pid purl id => reuseClose cenv pid purl id w

/-- Embedding of `closeBrowser` (playwright.ts lines 960-980): look the
profile up in the module registry; absent gives false; otherwise kill the
process, close the proxy (own catch), delete the registry entry and return
true; any uncaught rejection (the kill) gives false.  The lock file and the
CDP connection are never touched. -/
def closeBrowser (cenv : CloseEnv) (profileId : String) (w : World) :
    Bool × World × List Effect :=
  match regLookup w.registry profileId with
  | none => (false, w, [])
  | some entry =>
    if cenv.killOk then
      let w1 : World :=
        { w with alive := w.alive.filter (fun x => x ≠ entry.pid) }
      let step2 : World × List Effect :=
        match entry.proxyUrl with
        | some u =>
          ({ w1 with leases :=
               if cenv.proxyCloseOk then w1.leases.filter (fun x => x ≠ u)
               else w1.leases },
           [.releaseProxyLease u])
        | none => (w1, [])
      (true,
       { step2.fst with registry := regErase step2.fst.registry profileId },
       [.killProcess entry.pid] ++ step2.snd ++ [.registryDelete profileId])
    else
      (false, w, [.killProcess entry.pid])

/-- The per-entry body of `closeAllBrowsers` (playwright.ts lines 988-997):
kill the process and close the proxy, each failure swallowed for that entry
(a kill rejection skips that entry's proxy close). -/
def closeAllEntry (cenv : CloseEnv) (e : String × RegEntry) (w : World) :
    World × List Effect :=
  if cenv.killOk then
    let w1 : World :=
      { w with alive := w.alive.filter (fun x => x ≠ e.snd.pid) }
    match e.snd.proxyUrl with
    | some u =>
      ({ w1 with leases :=
           if cenv.proxyCloseOk then w1.leases.filter (fun x => x ≠ u)
           else w1.leases },
       [.killProcess e.snd.pid, .releaseProxyLease u])
    | none => (w1, [.killProcess e.snd.pid])
  else
    (w, [.killProcess e.snd.pid])

/-- One fold step of `closeAllBrowsers`: apply the per-entry teardown and
append its effects. -/
def closeAllStep (cenv : CloseEnv) (a : World × List Effect)
    (e : String × RegEntry) : World × List Effect :=
  let r := closeAllEntry cenv e a.fst
  (r.fst, a.snd ++ r.snd)

/-- Embedding of `closeAllBrowsers` (playwright.ts lines 985-1001): run the
per-entry teardown over every registry entry, then clear the registry.  The
lock files and the CDP connections are never touched. -/
def closeAllBrowsers (cenv : CloseEnv) (w : World) : World × List Effect :=
  let folded := w.registry.foldl (closeAllStep cenv) (w, ([] : List Effect))
  ({ folded.fst with registry := [] }, folded.snd)

/-- `Map.get` over the per-instance `runningBrowsers` map of
`BrowserProfiles` (profile-manager.ts line 62), which stores handles. -/
def mgrLookup (m : List (String × Handle)) (id : String) : Option Handle :=
  (m.find? (fun e => e.fst == id)).map (fun e => e.snd)

/-- `Map.delete` over the per-instance `runningBrowsers` map. -/
def mgrErase (m : List (String × Handle)) (id : String) :
    List (String × Handle) :=
  m.filter (fun e => e.fst != id)

/-- Result, final state, final per-instance registry and effect trace of
one `BrowserProfiles.launch` call. -/
structure MgrOutcome where
  result : Except LaunchError Handle
  world : World
  mgr : List (String × Handle)
  effects : List Effect
deriving DecidableEq, Repr

/-- Embedding of `BrowserProfiles.launch` (profile-manager.ts lines
259-301) for a profile that exists: when the instance already tracks a
running handle for the profile, that handle's close closure runs first and
the entry is deleted; then `launchChrome` runs; on success the new handle
is stored in the instance map.  (The lastLaunchedAt bookkeeping touches
only the profile config file and is omitted.) -/
def managerLaunch (env : Env) (cenv : CloseEnv) (opts : LaunchOpts)
    (profile : StoredProfile) (w : World) (mgr : List (String × Handle)) :
    MgrOutcome :=
  let pre : World × List (String × Handle) × List Effect :=
    match mgrLookup mgr profile.id with
    | some h =>
      let r := closeHandle cenv h.closeData w
      (r.fst, mgrErase mgr profile.id, r.snd)
    | none => (w, mgr, [])
  let o := launchChrome env opts profile pre.fst
  match o.result with
  | .ok h =>
    ⟨.ok h, o.world, (profile.id, h) :: mgrErase pre.snd.fst profile.id,
     pre.snd.snd ++ o.effects⟩
  | .error e => ⟨.error e, o.world, pre.snd.fst, pre.snd.snd ++ o.effects⟩

/-- True exactly on process-spawn effects. -/
def isSpawnEffect : Effect → Bool
  | .spawnProcess _ _ _ => true
  | _ => false

/-- Number of browser processes spawned in a trace. -/
def countSpawns (l : List Effect) : Nat := (l.filter isSpawnEffect).length

/-- A profile with no upstream proxy and no explicit timezone. -/
def profileNoProxy : StoredProfile :=
  { id := "p1", name := "Profile 1" }

/-- The upstream proxy descriptor of the spec's scenario section. -/
def proxyCfg0 : ProxyConfig :=
  { ptype := .http, host := "203.0.113.5", port := 8080 }

/-- The spec scenario profile: upstream proxy, no explicit timezone. -/
def profileP1 : StoredProfile :=
  { id := "p1", name := "p1", proxy := some proxyCfg0 }

/-- A profile state with no lock file, empty registry, no processes and no
leases. -/
def emptyWorld : World :=
  { lock := .absent, registry := [], alive := [], leases := [] }

/-- An environment in which every collaborator succeeds: the Linux default
binary exists, the spawn yields pid 7 on port 9222, CDP connects on the
first attempt and endpoint discovery answers immediately. -/
def envOk : Env :=
  { fsExists := fun s => s == "/usr/bin/chromium",
    osKind := .linux,
    homedir := "/home/u",
    probe := .netError,
    anonymizeResult := .ok "http://127.0.0.1:40000",
    geoApi := .fetchError,
    systemTimezone := "Europe/Berlin",
    spawnResult := .ok ⟨7, 9222⟩,
    cdpConnectOk := fun _ => true,
    cookieOk := fun _ => true,
    wsProbe := fun _ => some "ws://127.0.0.1:9222/devtools/browser/abc",
    now := 1000 }

/-- Like `envOk` but the second spawn: pid 8 on port 9223, a different
endpoint address. -/
def envOk2 : Env :=
  { envOk with
    spawnResult := .ok ⟨8, 9223⟩,
    wsProbe := fun _ => some "ws://127.0.0.1:9223/devtools/browser/def" }

/-- Like `envOk` but the liveness probe answers with the endpoint the first
launch advertised (the browser from the first launch is still up). -/
def envReuse : Env :=
  { envOk with probe := .okWs "ws://127.0.0.1:9222/devtools/browser/abc" }

/-- Environment in which the proxy anonymisation fails. -/
def envProxyFail : Env :=
  { envOk with anonymizeResult := .error "could not listen" }

/-- Environment in which the process spawn fails after a successful lease
acquisition. -/
def envSpawnFail : Env :=
  { envOk with spawnResult := .error "spawn EACCES" }

/-- Environment in which every CDP connect attempt is refused. -/
def envCdpFail : Env :=
  { envOk with cdpConnectOk := fun _ => false }

/-- A descriptor as written by a successful proxied launch. -/
def lockInfo0 : BrowserLockInfo :=
  { pid := 7, port := 9222,
    wsEndpoint := "ws://127.0.0.1:9222/devtools/browser/abc",
    startedAt := 1000, proxyUrl := some "http://127.0.0.1:40000" }

/-- A world with a stale descriptor and nothing else. -/
def staleWorld : World :=
  { lock := .valid lockInfo0, registry := [], alive := [], leases := [] }

/-- The world right after a successful proxied launch of profile p1. -/
def worldRunning : World :=
  { lock := .valid lockInfo0,
    registry := [("p1", { pid := 7, proxyUrl := some "http://127.0.0.1:40000" })],
    alive := [7],
    leases := ["http://127.0.0.1:40000"] }

/-- A profile with one cookie to preseed. -/
def profileWithCookie : StoredProfile :=
  { id := "p1", name := "Profile 1",
    cookies := [{ name := "sid", value := "v1", domain := "example.com" }] }

/-- First manager launch of the C1 scenario. -/
def c1FirstLaunch : MgrOutcome :=
  managerLaunch envOk {} {} profileNoProxy emptyWorld []

/-- Second manager launch of the C1 scenario, on the same instance. -/
def c1SecondLaunch : MgrOutcome :=
  managerLaunch envOk2 {} {} profileNoProxy c1FirstLaunch.world c1FirstLaunch.mgr

/-! Helper lemmas. -/

theorem deleteLockFile_true (s : LockFileState) : deleteLockFile true s = .absent := by
  cases s <;> rfl

theorem deleteLockFile_idem (unlinkOk : Bool) (s : LockFileState) :
    deleteLockFile unlinkOk (deleteLockFile unlinkOk s) = deleteLockFile unlinkOk s := by
  cases unlinkOk <;> cases s <;> rfl

theorem filter_self_idem {α : Type} (p : α → Bool) (l : List α) :
    (l.filter p).filter p = l.filter p := by
  induction l with
  | nil => rfl
  | cons a t ih =>
    by_cases h : p a = true
    · simp [List.filter_cons, h, ih]
    · simp [List.filter_cons, Bool.of_not_eq_true h, ih]

theorem regErase_idem (r : List (String × RegEntry)) (id : String) :
    regErase (regErase r id) id = regErase r id :=
  filter_self_idem _ _

theorem find?_filter_ne (t : List (String × RegEntry)) (id : String) :
    (t.filter (fun e => e.fst != id)).find? (fun e => e.fst == id) = none := by
  induction t with
  | nil => rfl
  | cons a l ih =>
    by_cases hb : a.fst = id
    · have h1 : (a.fst != id) = false := by simp [hb]
      simp [List.filter_cons, h1, ih]
    · have h1 : (a.fst != id) = true := by simp [hb]
      have h2 : (a.fst == id) = false := by simp [hb]
      simp [List.filter_cons, h1, List.find?_cons, h2, ih]

theorem regLookup_erase (r : List (String × RegEntry)) (id : String) :
    regLookup (regErase r id) id = none := by
  simp [regLookup, regErase, find?_filter_ne]

theorem findAttempt_eq_none (ok : Nat → Bool) :
    ∀ (fuel start : Nat),
      (∀ j, start ≤ j → j < start + fuel → ok j = false) →
      findAttempt ok fuel start = none := by
  intro fuel
  induction fuel with
  | zero => intro start _; rfl
  | succ n ih =>
    intro start h
    have h0 : ok start = false := h start le_rfl (by omega)
    simp only [findAttempt, h0, Bool.false_eq_true, if_false]
    exact ih (start + 1) (fun j hj1 hj2 => h j (by omega) (by omega))

theorem cookieEffects_no_spawn (p : StoredProfile) (ck : Nat → Bool) :
    (cookieEffects p ck).filter isSpawnEffect = [] := by
  unfold cookieEffects
  generalize p.cookies.enum = l
  induction l with
  | nil => rfl
  | cons a t ih => simp [List.filter_cons, isSpawnEffect, ih]

theorem configEffects_no_spawn (p : StoredProfile) (ck : Nat → Bool) :
    (configEffects p ck).filter isSpawnEffect = [] := by
  simp [configEffects, List.filter_append, List.filter_cons, isSpawnEffect,
    cookieEffects_no_spawn]

theorem closeAllEntry_facts (cenv : CloseEnv) (e : String × RegEntry) (w : World) :
    (closeAllEntry cenv e w).fst.lock = w.lock ∧
    (closeAllEntry cenv e w).fst.registry = w.registry ∧
    ∀ x ∈ (closeAllEntry cenv e w).snd,
      (∃ pid, x = Effect.killProcess pid) ∨ ∃ u, x = Effect.releaseProxyLease u := by
  unfold closeAllEntry
  by_cases hk : cenv.killOk = true
  · cases hp : e.snd.proxyUrl with
    | none =>
      refine ⟨by simp [hk, hp], by simp [hk, hp], ?_⟩
      intro x hx
      simp [hk, hp] at hx
      exact Or.inl ⟨_, hx⟩
    | some u =>
      refine ⟨by simp [hk, hp], by simp [hk, hp], ?_⟩
      intro x hx
      simp [hk, hp] at hx
      rcases hx with h | h
      · exact Or.inl ⟨_, h⟩
      · exact Or.inr ⟨_, h⟩
  · have hk2 : cenv.killOk = false := Bool.of_not_eq_true hk
    refine ⟨by simp [hk2], by simp [hk2], ?_⟩
    intro x hx
    simp [hk2] at hx
    exact Or.inl ⟨_, hx⟩

theorem closeAllStep_fold (cenv : CloseEnv) (l : List (String × RegEntry)) :
    ∀ (w : World) (acc : List Effect),
      ((l.foldl (closeAllStep cenv) (w, acc)).fst.lock = w.lock) ∧
      ((l.foldl (closeAllStep cenv) (w, acc)).fst.registry = w.registry) ∧
      (∀ x, x ∈ (l.foldl (closeAllStep cenv) (w, acc)).snd →
        x ∈ acc ∨ (∃ pid, x = Effect.killProcess pid) ∨
          (∃ u, x = Effect.releaseProxyLease u)) := by
  induction l with
  | nil => exact fun w acc => ⟨rfl, rfl, fun x hx => Or.inl hx⟩
  | cons e t ih =>
    intro w acc
    have he := closeAllEntry_facts cenv e w
    have hstep : closeAllStep cenv (w, acc) e =
        ((closeAllEntry cenv e w).fst, acc ++ (closeAllEntry cenv e w).snd) := rfl
    simp only [List.foldl_cons, hstep]
    obtain ⟨h1, h2, h3⟩ :=
      ih (closeAllEntry cenv e w).fst (acc ++ (closeAllEntry cenv e w).snd)
    refine ⟨h1.trans he.1, h2.trans he.2.1, ?_⟩
    intro x hx
    rcases h3 x hx with hmem | h | h
    · rcases List.mem_append.mp hmem with ha | hb
      · exact Or.inl ha
      · rcases he.2.2 x hb with h | h
        · exact Or.inr (Or.inl h)
        · exact Or.inr (Or.inr h)
    · exact Or.inr (Or.inl h)
    · exact Or.inr (Or.inr h)

theorem regLookup_put (r : List (String × RegEntry)) (id : String) (e : RegEntry) :
    regLookup (regPut r id e) id = some e := by
  simp [regLookup, regPut, List.find?_cons]

theorem closeBrowser_facts (cenv : CloseEnv) (id : String) (w : World)
    (entry : RegEntry)
    (hlook : regLookup w.registry id = some entry)
    (hkill : cenv.killOk = true) :
    (closeBrowser cenv id w).fst = true ∧
    regLookup (closeBrowser cenv id w).snd.fst.registry id = none ∧
    (closeBrowser cenv id w).snd.fst.lock = w.lock ∧
    Effect.cdpClose ∉ (closeBrowser cenv id w).snd.snd ∧
    Effect.deleteLock ∉ (closeBrowser cenv id w).snd.snd ∧
    Effect.killProcess entry.pid ∈ (closeBrowser cenv id w).snd.snd ∧
    (∀ u, entry.proxyUrl = some u →
      Effect.releaseProxyLease u ∈ (closeBrowser cenv id w).snd.snd) := by
  cases hp : entry.proxyUrl with
  | none =>
    have h : closeBrowser cenv id w =
        (true,
         { lock := w.lock,
           registry := regErase w.registry id,
           alive := w.alive.filter (fun x => x ≠ entry.pid),
           leases := w.leases },
         [Effect.killProcess entry.pid, Effect.registryDelete id]) := by
      unfold closeBrowser
      rw [hlook]
      simp [hkill, hp]
    rw [h]
    refine ⟨rfl, regLookup_erase _ _, rfl, by simp, by simp, by simp, ?_⟩
    intro u hu
    exact Option.noConfusion hu
  | some u0 =>
    have h : closeBrowser cenv id w =
        (true,
         { lock := w.lock,
           registry := regErase w.registry id,
           alive := w.alive.filter (fun x => x ≠ entry.pid),
           leases := if cenv.proxyCloseOk then
             w.leases.filter (fun x => x ≠ u0) else w.leases },
         [Effect.killProcess entry.pid, Effect.releaseProxyLease u0,
          Effect.registryDelete id]) := by
      unfold closeBrowser
      rw [hlook]
      simp [hkill, hp]
    rw [h]
    refine ⟨rfl, regLookup_erase _ _, rfl, by simp, by simp, by simp, ?_⟩
    intro u hu
    have huu : u0 = u := by injection hu
    subst huu
    simp

theorem launchFresh_ok_noProxy
    (env : Env) (opts : LaunchOpts) (profile : StoredProfile) (w : World)
    (cp : String) (proc : ChromeProc) (i : Nat) (ws : String)
    (hcp : getChromePath env.fsExists env.envChromium env.envChrome env.osKind
      env.homedir opts.chromePath = .ok cp)
    (hpx : profile.proxy = none)
    (hsp : env.spawnResult = .ok proc)
    (hcdp : findAttempt env.cdpConnectOk cdpMaxRetries 0 = some i)
    (hws : findProbe env.wsProbe wsMaxRetries 0 = some ws)
    (hwr : env.writeOk = true) :
    launchFresh env opts profile w =
      ⟨.ok ⟨ws, proc.pid, proc.port, profile.id, .fresh proc.pid none profile.id⟩,
       { lock := .valid ⟨proc.pid, proc.port, ws, env.now, none⟩,
         registry := regPut w.registry profile.id ⟨proc.pid, none⟩,
         alive := proc.pid :: w.alive,
         leases := w.leases },
       [Effect.cleanSingletons,
        Effect.spawnProcess proc.pid proc.port
          (resolveTimezone profile env.geoApi env.systemTimezone)] ++
         configEffects profile env.cookieOk ++
         [Effect.registryPut profile.id,
          Effect.writeLock ⟨proc.pid, proc.port, ws, env.now, none⟩]⟩ := by
  unfold launchFresh launchSpawn
  rw [hcp, hpx, hsp, hcdp, hws]
  simp [hwr]

theorem launchFresh_ok_proxy
    (env : Env) (opts : LaunchOpts) (profile : StoredProfile) (w : World)
    (cp : String) (p : ProxyConfig) (u : String) (proc : ChromeProc)
    (i : Nat) (ws : String)
    (hcp : getChromePath env.fsExists env.envChromium env.envChrome env.osKind
      env.homedir opts.chromePath = .ok cp)
    (hpx : profile.proxy = some p)
    (han : env.anonymizeResult = .ok u)
    (hsp : env.spawnResult = .ok proc)
    (hcdp : findAttempt env.cdpConnectOk cdpMaxRetries 0 = some i)
    (hws : findProbe env.wsProbe wsMaxRetries 0 = some ws)
    (hwr : env.writeOk = true) :
    launchFresh env opts profile w =
      ⟨.ok ⟨ws, proc.pid, proc.port, profile.id,
            .fresh proc.pid (some u) profile.id⟩,
       { lock := .valid ⟨proc.pid, proc.port, ws, env.now, some u⟩,
         registry := regPut w.registry profile.id ⟨proc.pid, some u⟩,
         alive := proc.pid :: w.alive,
         leases := u :: w.leases },
       [Effect.cleanSingletons, Effect.acquireProxyLease u,
        Effect.spawnProcess proc.pid proc.port
          (resolveTimezone profile env.geoApi env.systemTimezone)] ++
         configEffects profile env.cookieOk ++
         [Effect.registryPut profile.id,
          Effect.writeLock ⟨proc.pid, proc.port, ws, env.now, some u⟩]⟩ := by
  unfold launchFresh launchSpawn
  rw [hcp, hpx, han, hsp, hcdp, hws]
  simp [hwr]

/-! Claim C1: reuse idempotence of session acquisition. -/

/-- C1 counterexample: two sequential acquisitions through
`BrowserProfiles.launch` on the same instance do NOT reuse the running
session — the second call closes the tracked browser and relaunches, so two
processes are spawned in total, the two handles carry different process
ids, and the first browser is killed. -/
theorem C1_cex :
    countSpawns c1FirstLaunch.effects + countSpawns c1SecondLaunch.effects = 2 ∧
    c1FirstLaunch.result.toOption.map (fun h => h.pid) = some 7 ∧
    c1SecondLaunch.result.toOption.map (fun h => h.pid) = some 8 ∧
    Effect.killProcess 7 ∈ c1SecondLaunch.effects := by
  decide

/-- C1 amended: two sequential acquisitions through `launchChrome` (the
path that consults the Session Descriptor — equivalently, acquisitions not
running through one `BrowserProfiles` instance's in-memory map) return
handles with identical endpoint address and process id; exactly one process
is spawned in total, and the reuse call performs no effect at all — in
particular it spawns nothing and creates no Proxy Lease.
`BrowserProfiles.launch` itself, by contrast, closes the session its
instance tracks and relaunches (see the counterexample). -/
theorem C1_amended
    (env1 env2 : Env) (opts : LaunchOpts) (profile : StoredProfile) (w : World)
    (cp : String) (proc : ChromeProc) (i : Nat) (ws : String)
    (hlock : w.lock = .absent)
    (hcp : getChromePath env1.fsExists env1.envChromium env1.envChrome
      env1.osKind env1.homedir opts.chromePath = .ok cp)
    (hpx : profile.proxy = none)
    (hsp : env1.spawnResult = .ok proc)
    (hcdp : findAttempt env1.cdpConnectOk cdpMaxRetries 0 = some i)
    (hws : findProbe env1.wsProbe wsMaxRetries 0 = some ws)
    (hwr : env1.writeOk = true)
    (hprobe2 : env2.probe = .okWs ws) :
    (launchChrome env1 opts profile w).result =
      .ok ⟨ws, proc.pid, proc.port, profile.id, .fresh proc.pid none profile.id⟩ ∧
    (launchChrome env2 opts profile
        (launchChrome env1 opts profile w).world).result =
      .ok ⟨ws, proc.pid, proc.port, profile.id, .reuse proc.pid none profile.id⟩ ∧
    countSpawns (launchChrome env1 opts profile w).effects = 1 ∧
    (launchChrome env2 opts profile
        (launchChrome env1 opts profile w).world).effects = [] := by
  have h1 : launchChrome env1 opts profile w = launchFresh env1 opts profile w := by
    simp [launchChrome, hlock, readLockFile]
  have h2 := launchFresh_ok_noProxy env1 opts profile w cp proc i ws hcp hpx hsp
    hcdp hws hwr
  rw [h1, h2]
  refine ⟨rfl, ?_, ?_, ?_⟩
  · simp [launchChrome, readLockFile, tryConnectExisting, hprobe2]
  · simp [countSpawns, List.filter_append, List.filter_cons, isSpawnEffect,
      cookieEffects_no_spawn, configEffects_no_spawn]
  · simp [launchChrome, readLockFile, tryConnectExisting, hprobe2]

/-- C1 witness: the amended theorem at a concrete profile and environment. -/
theorem C1_amended_w :
    (launchChrome envOk {} profileNoProxy emptyWorld).result =
      .ok ⟨"ws://127.0.0.1:9222/devtools/browser/abc", 7, 9222, "p1",
           .fresh 7 none "p1"⟩ ∧
    (launchChrome envReuse {} profileNoProxy
        (launchChrome envOk {} profileNoProxy emptyWorld).world).result =
      .ok ⟨"ws://127.0.0.1:9222/devtools/browser/abc", 7, 9222, "p1",
           .reuse 7 none "p1"⟩ ∧
    countSpawns (launchChrome envOk {} profileNoProxy emptyWorld).effects = 1 ∧
    (launchChrome envReuse {} profileNoProxy
        (launchChrome envOk {} profileNoProxy emptyWorld).world).effects = [] := by
  exact C1_amended envOk envReuse {} profileNoProxy emptyWorld "/usr/bin/chromium"
    ⟨7, 9222⟩ 0 "ws://127.0.0.1:9222/devtools/browser/abc" rfl (by decide) rfl rfl
    rfl rfl rfl rfl

/-! Claim C2: symmetric rollback on handshake failure. -/

/-- C2: when every CDP connect attempt inside the fixed budget (10 attempts,
300 ms fixed delay) fails, `launchChrome` propagates the connection error,
the spawned process is killed (pid absent from the live set), the Proxy
Lease acquired for this launch is released, the descriptor is never written
and no descriptor exists afterwards.  The inline cleanup sits in a single
try block, so this holds under the assumption that the kill call itself
succeeds (`cleanupKillOk`). -/
theorem C2_handshake_rollback
    (env : Env) (opts : LaunchOpts) (profile : StoredProfile) (w : World)
    (cp : String) (proc : ChromeProc)
    (hlock : w.lock = .absent)
    (hcp : getChromePath env.fsExists env.envChromium env.envChrome env.osKind
      env.homedir opts.chromePath = .ok cp)
    (hpx : profile.proxy = none ∨ ∃ u, env.anonymizeResult = .ok u)
    (hsp : env.spawnResult = .ok proc)
    (hfail : ∀ j, j < cdpMaxRetries → env.cdpConnectOk j = false)
    (hkill : env.cleanupKillOk = true) :
    (launchChrome env opts profile w).result = .error .cdpConnectFailed ∧
    proc.pid ∉ (launchChrome env opts profile w).world.alive ∧
    (launchChrome env opts profile w).world.lock = .absent ∧
    Effect.killProcess proc.pid ∈ (launchChrome env opts profile w).effects ∧
    (∀ u, profile.proxy ≠ none → env.anonymizeResult = .ok u →
      u ∉ (launchChrome env opts profile w).world.leases ∧
      Effect.releaseProxyLease u ∈ (launchChrome env opts profile w).effects) ∧
    (∀ info, Effect.writeLock info ∉ (launchChrome env opts profile w).effects) ∧
    cdpMaxRetries = 10 ∧ cdpRetryDelayMs = 300 := by
  have hfind : findAttempt env.cdpConnectOk cdpMaxRetries 0 = none :=
    findAttempt_eq_none _ _ _ (fun j _ hj => hfail j (by simpa using hj))
  have h1 : launchChrome env opts profile w = launchFresh env opts profile w := by
    simp [launchChrome, hlock, readLockFile]
  cases hpxv : profile.proxy with
  | none =>
    have h2 : launchFresh env opts profile w =
        ⟨.error .cdpConnectFailed,
         { lock := w.lock, registry := w.registry,
           alive := (proc.pid :: w.alive).filter (fun x => x ≠ proc.pid),
           leases := w.leases },
         [Effect.cleanSingletons,
          Effect.spawnProcess proc.pid proc.port
            (resolveTimezone profile env.geoApi env.systemTimezone),
          Effect.killProcess proc.pid]⟩ := by
      unfold launchFresh launchSpawn
      rw [hcp, hpxv, hsp, hfind]
      simp [hkill]
    rw [h1, h2]
    refine ⟨rfl, ?_, by simpa using hlock, by simp, ?_, by simp, rfl, rfl⟩
    · simp [List.mem_filter]
    · intro u hne _
      exact absurd rfl hne
  | some pc =>
    obtain ⟨u0, hu⟩ : ∃ u, env.anonymizeResult = .ok u := by
      rcases hpx with hpx | h
      · rw [hpx] at hpxv
        exact Option.noConfusion hpxv
      · exact h
    have h2 : launchFresh env opts profile w =
        ⟨.error .cdpConnectFailed,
         { lock := w.lock, registry := w.registry,
           alive := (proc.pid :: w.alive).filter (fun x => x ≠ proc.pid),
           leases := (u0 :: w.leases).filter (fun x => x ≠ u0) },
         [Effect.cleanSingletons, Effect.acquireProxyLease u0,
          Effect.spawnProcess proc.pid proc.port
            (resolveTimezone profile env.geoApi env.systemTimezone),
          Effect.killProcess proc.pid, Effect.releaseProxyLease u0]⟩ := by
      unfold launchFresh launchSpawn
      rw [hcp, hpxv, hu, hsp, hfind]
      simp [hkill]
    rw [h1, h2]
    refine ⟨rfl, ?_, by simpa using hlock, by simp, ?_, by simp, rfl, rfl⟩
    · simp [List.mem_filter]
    · intro u _ hu2
      have huu : u0 = u := by
        have h3 := hu.symm.trans hu2
        injection h3
      subst huu
      exact ⟨by simp [List.mem_filter], by simp⟩

/-- C2 witness: the rollback theorem at a concrete proxied profile whose
CDP handshake never succeeds. -/
theorem C2_handshake_rollback_w :
    (launchChrome envCdpFail {} profileP1 emptyWorld).result =
      .error .cdpConnectFailed ∧
    7 ∉ (launchChrome envCdpFail {} profileP1 emptyWorld).world.alive ∧
    (launchChrome envCdpFail {} profileP1 emptyWorld).world.lock = .absent := by
  have h := C2_handshake_rollback envCdpFail {} profileP1 emptyWorld
    "/usr/bin/chromium" ⟨7, 9222⟩ rfl (by decide) (Or.inr ⟨_, rfl⟩) rfl
    (fun j _ => rfl) rfl
  exact ⟨h.1, h.2.1, h.2.2.1⟩

/-! Claim C3: teardown contract of the Session Handle close. -/

/-- C3 counterexample: in the fresh-launch close, step 2 (process
termination) has no individual error guard — with a kill call that throws,
the outer catch swallows the error but the proxy release, the registry
removal and the descriptor deletion never run: the world is unchanged, the
descriptor still exists, so a failure in one step does prevent the
remaining steps, contradicting the claim that every step independently
swallows its own errors. -/
theorem C3_cex :
    (freshClose { killOk := false } 7 (some "http://127.0.0.1:40000") "p1"
      worldRunning).fst = worldRunning ∧
    worldRunning.lock ≠ .absent ∧
    Effect.deleteLock ∉ (freshClose { killOk := false } 7
      (some "http://127.0.0.1:40000") "p1" worldRunning).snd ∧
    Effect.releaseProxyLease "http://127.0.0.1:40000" ∉
      (freshClose { killOk := false } 7 (some "http://127.0.0.1:40000") "p1"
        worldRunning).snd ∧
    Effect.registryDelete "p1" ∉ (freshClose { killOk := false } 7
      (some "http://127.0.0.1:40000") "p1" worldRunning).snd := by
  decide

/-- C3 amended: `close()` never throws (the model is total because the
whole body sits in one try/catch) and, whenever the kill call itself does
not throw, performs in order: close the CDP connection, kill the process,
release the Proxy Lease if present, remove the registry entry, delete the
descriptor; afterwards the pid is gone from the live set, the registry
entry is gone, the descriptor is gone (when the unlink succeeds), the lease
is gone (when the proxy close succeeds), and a second close is a no-op on
the state (idempotence).  Steps 1 and 3 swallow their own errors, but a
kill failure skips steps 3-5 (see the counterexample). -/
theorem C3_amended (cenv : CloseEnv) (pid : Nat) (purl : Option String)
    (id : String) (w : World) (hkill : cenv.killOk = true) :
    (freshClose cenv pid purl id w).snd =
      [Effect.cdpClose, Effect.killProcess pid] ++
        (match purl with
          | some u => [Effect.releaseProxyLease u]
          | none => []) ++
        [Effect.registryDelete id, Effect.deleteLock] ∧
    pid ∉ (freshClose cenv pid purl id w).fst.alive ∧
    regLookup (freshClose cenv pid purl id w).fst.registry id = none ∧
    (cenv.unlinkOk = true → (freshClose cenv pid purl id w).fst.lock = .absent) ∧
    (∀ u, purl = some u → cenv.proxyCloseOk = true →
      u ∉ (freshClose cenv pid purl id w).fst.leases) ∧
    (freshClose cenv pid purl id (freshClose cenv pid purl id w).fst).fst =
      (freshClose cenv pid purl id w).fst := by
  cases purl with
  | none =>
    have hgen : ∀ w2 : World, freshClose cenv pid none id w2 =
        ({ lock := deleteLockFile cenv.unlinkOk w2.lock,
           registry := regErase w2.registry id,
           alive := w2.alive.filter (fun x => x ≠ pid),
           leases := w2.leases },
         [Effect.cdpClose, Effect.killProcess pid, Effect.registryDelete id,
          Effect.deleteLock]) := by
      intro w2
      unfold freshClose
      simp [hkill]
    refine ⟨?_, ?_, ?_, ?_, ?_, ?_⟩
    · rw [hgen]; rfl
    · rw [hgen]; simp [List.mem_filter]
    · rw [hgen]; exact regLookup_erase _ _
    · intro hu; rw [hgen]; simp [hu, deleteLockFile_true]
    · intro u hu; exact Option.noConfusion hu
    · simp only [hgen]
      simp [deleteLockFile_idem, regErase_idem, filter_self_idem]
  | some u0 =>
    have hgen : ∀ w2 : World, freshClose cenv pid (some u0) id w2 =
        ({ lock := deleteLockFile cenv.unlinkOk w2.lock,
           registry := regErase w2.registry id,
           alive := w2.alive.filter (fun x => x ≠ pid),
           leases := if cenv.proxyCloseOk then w2.leases.filter (fun x => x ≠ u0)
             else w2.leases },
         [Effect.cdpClose, Effect.killProcess pid, Effect.releaseProxyLease u0,
          Effect.registryDelete id, Effect.deleteLock]) := by
      intro w2
      unfold freshClose
      simp [hkill]
    refine ⟨?_, ?_, ?_, ?_, ?_, ?_⟩
    · rw [hgen]; rfl
    · rw [hgen]; simp [List.mem_filter]
    · rw [hgen]; exact regLookup_erase _ _
    · intro hu; rw [hgen]; simp [hu, deleteLockFile_true]
    · intro u hu hpc
      have huu : u0 = u := by injection hu
      subst huu
      rw [hgen]
      simp [hpc, List.mem_filter]
    · simp only [hgen]
      by_cases hpc : cenv.proxyCloseOk = true
      · simp [hpc, deleteLockFile_idem, regErase_idem, filter_self_idem]
      · have hpc2 : cenv.proxyCloseOk = false := Bool.of_not_eq_true hpc
        simp [hpc2, deleteLockFile_idem, regErase_idem, filter_self_idem]

/-- C3 witness: the amended teardown theorem on the concrete world of a
running proxied session. -/
theorem C3_amended_w :
    (freshClose {} 7 (some "http://127.0.0.1:40000") "p1" worldRunning).snd =
      [Effect.cdpClose, Effect.killProcess 7,
       Effect.releaseProxyLease "http://127.0.0.1:40000",
       Effect.registryDelete "p1", Effect.deleteLock] ∧
    (freshClose {} 7 (some "http://127.0.0.1:40000") "p1"
      (freshClose {} 7 (some "http://127.0.0.1:40000") "p1" worldRunning).fst).fst =
      (freshClose {} 7 (some "http://127.0.0.1:40000") "p1" worldRunning).fst := by
  have h := C3_amended {} 7 (some "http://127.0.0.1:40000") "p1" worldRunning rfl
  exact ⟨by simpa using h.1, h.2.2.2.2.2⟩

/-! Claim C4: a stale descriptor self-heals. -/

/-- C4: when a descriptor is present but the liveness probe fails for any
reason (network error, non-OK status, missing endpoint field), the call
deletes the stale descriptor and behaves exactly as a fresh launch on the
cleaned state — the probe failure itself is never surfaced; in particular
under a healthy environment the acquisition succeeds. -/
theorem C4_stale_selfheal
    (env : Env) (opts : LaunchOpts) (profile : StoredProfile) (w : World)
    (info : BrowserLockInfo)
    (hread : readLockFile w.lock = some info)
    (hprobe : tryConnectExisting env.probe info = none) :
    launchChrome env opts profile w =
      ⟨(launchFresh env opts profile
          { w with lock := deleteLockFile env.unlinkOk w.lock }).result,
       (launchFresh env opts profile
          { w with lock := deleteLockFile env.unlinkOk w.lock }).world,
       Effect.deleteLock ::
         (launchFresh env opts profile
           { w with lock := deleteLockFile env.unlinkOk w.lock }).effects⟩ ∧
    (∀ cp proc i ws,
      getChromePath env.fsExists env.envChromium env.envChrome env.osKind
        env.homedir opts.chromePath = .ok cp →
      profile.proxy = none →
      env.spawnResult = .ok proc →
      findAttempt env.cdpConnectOk cdpMaxRetries 0 = some i →
      findProbe env.wsProbe wsMaxRetries 0 = some ws →
      env.writeOk = true →
      (launchChrome env opts profile w).result =
        .ok ⟨ws, proc.pid, proc.port, profile.id,
             .fresh proc.pid none profile.id⟩) := by
  have hmain : launchChrome env opts profile w =
      ⟨(launchFresh env opts profile
          { w with lock := deleteLockFile env.unlinkOk w.lock }).result,
       (launchFresh env opts profile
          { w with lock := deleteLockFile env.unlinkOk w.lock }).world,
       Effect.deleteLock ::
         (launchFresh env opts profile
           { w with lock := deleteLockFile env.unlinkOk w.lock }).effects⟩ := by
    simp [launchChrome, hread, hprobe]
  refine ⟨hmain, ?_⟩
  intro cp proc i ws hcp hpx hsp hcdp hws hwr
  have h2 := launchFresh_ok_noProxy env opts profile
    { w with lock := deleteLockFile env.unlinkOk w.lock } cp proc i ws hcp hpx
    hsp hcdp hws hwr
  rw [hmain, h2]

/-- C4 witness: a stale descriptor (dead probe) followed by a healthy fresh
launch. -/
theorem C4_stale_selfheal_w :
    (launchChrome envOk {} profileNoProxy staleWorld).effects.head? =
      some Effect.deleteLock ∧
    (launchChrome envOk {} profileNoProxy staleWorld).result =
      .ok ⟨"ws://127.0.0.1:9222/devtools/browser/abc", 7, 9222, "p1",
           .fresh 7 none "p1"⟩ := by
  have h := C4_stale_selfheal envOk {} profileNoProxy staleWorld lockInfo0 rfl rfl
  constructor
  · rw [h.1]; rfl
  · exact h.2 "/usr/bin/chromium" ⟨7, 9222⟩ 0
      "ws://127.0.0.1:9222/devtools/browser/abc" (by decide) rfl rfl rfl rfl rfl

/-! Claim C5: timezone resolution. -/

/-- C5, evaluated at the claim's failing input.  With a proxied profile,
no explicit timezone, a geolocation lookup that returns none and host
timezone Europe/Berlin: the resolution chain does produce the host timezone
and no error is raised — but that value only reaches the TZ environment
variable of the spawned process; the control-protocol timezone override,
which governs what pages observe, is `profile.timezone || America/New_York`
and is therefore set to America/New_York, not to the host timezone.  So the
session's effective timezone differs from the claim. -/
theorem C5_timezone_bug :
    resolveTimezone profileP1 envOk.geoApi envOk.systemTimezone =
      "Europe/Berlin" ∧
    (launchChrome envOk {} profileP1 emptyWorld).result =
      .ok ⟨"ws://127.0.0.1:9222/devtools/browser/abc", 7, 9222, "p1",
           .fresh 7 (some "http://127.0.0.1:40000") "p1"⟩ ∧
    Effect.spawnProcess 7 9222 "Europe/Berlin" ∈
      (launchChrome envOk {} profileP1 emptyWorld).effects ∧
    Effect.setTimezoneOverride "America/New_York" ∈
      (launchChrome envOk {} profileP1 emptyWorld).effects ∧
    Effect.setTimezoneOverride "Europe/Berlin" ∉
      (launchChrome envOk {} profileP1 emptyWorld).effects := by
  decide

/-! Claim C6: configuration pipeline order. -/

/-- C6: on every freshly spawned session the effect trace contains, as one
contiguous block in this order, the network-identity override (user agent,
platform, accept-language), then the injection of the protection script,
then the timezone override, then one cookie insertion per profile cookie in
list order; the launch succeeds, and the result is independent of which
individual cookie insertions fail (each failure is swallowed). -/
theorem C6_config_pipeline
    (env : Env) (opts : LaunchOpts) (profile : StoredProfile) (w : World)
    (cp : String) (proc : ChromeProc) (i : Nat) (ws : String)
    (hlock : w.lock = .absent)
    (hcp : getChromePath env.fsExists env.envChromium env.envChrome env.osKind
      env.homedir opts.chromePath = .ok cp)
    (hpx : profile.proxy = none ∨ ∃ u, env.anonymizeResult = .ok u)
    (hsp : env.spawnResult = .ok proc)
    (hcdp : findAttempt env.cdpConnectOk cdpMaxRetries 0 = some i)
    (hws : findProbe env.wsProbe wsMaxRetries 0 = some ws)
    (hwr : env.writeOk = true) :
    (∃ pre post,
      (launchChrome env opts profile w).effects =
        pre ++
          [Effect.setUserAgentOverride (fpUserAgent profile) (fpPlatform profile)
            (fpLanguage profile),
           Effect.injectProtectionScript,
           Effect.setTimezoneOverride (tzOverrideId profile)] ++
          cookieEffects profile env.cookieOk ++ post) ∧
    (∃ h, (launchChrome env opts profile w).result = .ok h) ∧
    (∀ ck : Nat → Bool,
      (launchChrome { env with cookieOk := ck } opts profile w).result =
        (launchChrome env opts profile w).result) := by
  have l1 : launchChrome env opts profile w = launchFresh env opts profile w := by
    simp [launchChrome, hlock, readLockFile]
  cases hpxv : profile.proxy with
  | none =>
    have e1 := launchFresh_ok_noProxy env opts profile w cp proc i ws hcp hpxv
      hsp hcdp hws hwr
    refine ⟨⟨[Effect.cleanSingletons,
        Effect.spawnProcess proc.pid proc.port
          (resolveTimezone profile env.geoApi env.systemTimezone),
        Effect.enableNetwork],
      [Effect.registryPut profile.id,
       Effect.writeLock ⟨proc.pid, proc.port, ws, env.now, none⟩], ?_⟩,
      ⟨⟨ws, proc.pid, proc.port, profile.id, .fresh proc.pid none profile.id⟩,
        ?_⟩, ?_⟩
    · rw [l1, e1]
      simp [configEffects]
    · rw [l1, e1]
    · intro ck
      have l1c : launchChrome { env with cookieOk := ck } opts profile w =
          launchFresh { env with cookieOk := ck } opts profile w := by
        simp [launchChrome, hlock, readLockFile]
      have e1c := launchFresh_ok_noProxy { env with cookieOk := ck } opts profile
        w cp proc i ws hcp hpxv hsp hcdp hws hwr
      rw [l1, e1, l1c, e1c]
  | some pc =>
    obtain ⟨u, hu⟩ : ∃ u, env.anonymizeResult = .ok u := by
      rcases hpx with hpx | h
      · rw [hpx] at hpxv
        exact Option.noConfusion hpxv
      · exact h
    have e1 := launchFresh_ok_proxy env opts profile w cp pc u proc i ws hcp
      hpxv hu hsp hcdp hws hwr
    refine ⟨⟨[Effect.cleanSingletons, Effect.acquireProxyLease u,
        Effect.spawnProcess proc.pid proc.port
          (resolveTimezone profile env.geoApi env.systemTimezone),
        Effect.enableNetwork],
      [Effect.registryPut profile.id,
       Effect.writeLock ⟨proc.pid, proc.port, ws, env.now, some u⟩], ?_⟩,
      ⟨⟨ws, proc.pid, proc.port, profile.id, .fresh proc.pid (some u) profile.id⟩,
        ?_⟩, ?_⟩
    · rw [l1, e1]
      simp [configEffects]
    · rw [l1, e1]
    · intro ck
      have l1c : launchChrome { env with cookieOk := ck } opts profile w =
          launchFresh { env with cookieOk := ck } opts profile w := by
        simp [launchChrome, hlock, readLockFile]
      have e1c := launchFresh_ok_proxy { env with cookieOk := ck } opts profile
        w cp pc u proc i ws hcp hpxv hu hsp hcdp hws hwr
      rw [l1, e1, l1c, e1c]

/-- C6 witness: the pipeline theorem applied to a profile with one cookie;
the cookie-failure independence conjunct instantiated at the
all-insertions-fail function. -/
theorem C6_config_pipeline_w :
    (launchChrome { envOk with cookieOk := fun _ => false } {} profileWithCookie
      emptyWorld).result =
    (launchChrome envOk {} profileWithCookie emptyWorld).result := by
  exact (C6_config_pipeline envOk {} profileWithCookie emptyWorld
    "/usr/bin/chromium" ⟨7, 9222⟩ 0 "ws://127.0.0.1:9222/devtools/browser/abc"
    rfl (by decide) (Or.inl rfl) rfl rfl rfl rfl).2.2 (fun _ => false)

/-! Claim C7: proxy lease lifecycle on launch. -/

/-- C7: for a profile with an upstream proxy — (1) when the lease
acquisition fails, the launch fails with the proxy error, the state is
untouched and no process was spawned, no lease acquired, nothing released;
(2) when the spawn fails after the lease was acquired, the lease is
released before the launch error propagates (acquire then release, no
spawn effect, lease gone from the state); (3) on the success path the
lease acquisition effect precedes the spawn effect. -/
theorem C7_lease_lifecycle :
    (∀ (env : Env) (opts : LaunchOpts) (profile : StoredProfile) (w : World)
      (p : ProxyConfig) (cp e : String),
      profile.proxy = some p → w.lock = .absent →
      getChromePath env.fsExists env.envChromium env.envChrome env.osKind
        env.homedir opts.chromePath = .ok cp →
      env.anonymizeResult = .error e →
      (launchChrome env opts profile w).result = .error (.proxyError e) ∧
      (launchChrome env opts profile w).world = w ∧
      (∀ a b c, Effect.spawnProcess a b c ∉ (launchChrome env opts profile w).effects) ∧
      (∀ u, Effect.acquireProxyLease u ∉ (launchChrome env opts profile w).effects) ∧
      (∀ u, Effect.releaseProxyLease u ∉ (launchChrome env opts profile w).effects)) ∧
    (∀ (env : Env) (opts : LaunchOpts) (profile : StoredProfile) (w : World)
      (p : ProxyConfig) (cp u m : String),
      profile.proxy = some p → w.lock = .absent →
      getChromePath env.fsExists env.envChromium env.envChrome env.osKind
        env.homedir opts.chromePath = .ok cp →
      env.anonymizeResult = .ok u → env.spawnResult = .error m →
      (launchChrome env opts profile w).result = .error (.launchFailed m) ∧
      (launchChrome env opts profile w).effects =
        [Effect.cleanSingletons, Effect.acquireProxyLease u,
         Effect.releaseProxyLease u] ∧
      (launchChrome env opts profile w).world.leases =
        w.leases.filter (fun x => x ≠ u) ∧
      u ∉ (launchChrome env opts profile w).world.leases) ∧
    (∀ (env : Env) (opts : LaunchOpts) (profile : StoredProfile) (w : World)
      (p : ProxyConfig) (cp u : String) (proc : ChromeProc) (i : Nat) (ws : String),
      profile.proxy = some p → w.lock = .absent →
      getChromePath env.fsExists env.envChromium env.envChrome env.osKind
        env.homedir opts.chromePath = .ok cp →
      env.anonymizeResult = .ok u → env.spawnResult = .ok proc →
      findAttempt env.cdpConnectOk cdpMaxRetries 0 = some i →
      findProbe env.wsProbe wsMaxRetries 0 = some ws → env.writeOk = true →
      ∃ rest, (launchChrome env opts profile w).effects =
        Effect.cleanSingletons :: Effect.acquireProxyLease u ::
          Effect.spawnProcess proc.pid proc.port
            (resolveTimezone profile env.geoApi env.systemTimezone) :: rest) := by
  refine ⟨?_, ?_, ?_⟩
  · intro env opts profile w p cp e hpx hlock hcp han
    have l1 : launchChrome env opts profile w = launchFresh env opts profile w := by
      simp [launchChrome, hlock, readLockFile]
    have h2 : launchFresh env opts profile w =
        ⟨.error (.proxyError e), w, [Effect.cleanSingletons]⟩ := by
      unfold launchFresh
      rw [hcp, hpx, han]
    rw [l1, h2]
    exact ⟨rfl, rfl, by simp, by simp, by simp⟩
  · intro env opts profile w p cp u m hpx hlock hcp han hsp
    have l1 : launchChrome env opts profile w = launchFresh env opts profile w := by
      simp [launchChrome, hlock, readLockFile]
    have h2 : launchFresh env opts profile w =
        ⟨.error (.launchFailed m),
         { w with leases := (u :: w.leases).filter (fun x => x ≠ u) },
         [Effect.cleanSingletons, Effect.acquireProxyLease u,
          Effect.releaseProxyLease u]⟩ := by
      unfold launchFresh launchSpawn
      rw [hcp, hpx, han, hsp]
      rfl
    rw [l1, h2]
    refine ⟨rfl, rfl, ?_, ?_⟩
    · simp [List.filter_cons]
    · simp [List.mem_filter]
  · intro env opts profile w p cp u proc i ws hpx hlock hcp han hsp hcdp hws hwr
    have l1 : launchChrome env opts profile w = launchFresh env opts profile w := by
      simp [launchChrome, hlock, readLockFile]
    have e1 := launchFresh_ok_proxy env opts profile w cp p u proc i ws hcp hpx
      han hsp hcdp hws hwr
    refine ⟨configEffects profile env.cookieOk ++
      [Effect.registryPut profile.id,
       Effect.writeLock ⟨proc.pid, proc.port, ws, env.now, some u⟩], ?_⟩
    rw [l1, e1]
    simp

/-- C7 witness: the lease-failure and spawn-failure branches at concrete
environments. -/
theorem C7_lease_lifecycle_w :
    (launchChrome envProxyFail {} profileP1 emptyWorld).result =
      .error (.proxyError "could not listen") ∧
    (launchChrome envSpawnFail {} profileP1 emptyWorld).result =
      .error (.launchFailed "spawn EACCES") ∧
    (launchChrome envSpawnFail {} profileP1 emptyWorld).effects =
      [Effect.cleanSingletons, Effect.acquireProxyLease "http://127.0.0.1:40000",
       Effect.releaseProxyLease "http://127.0.0.1:40000"] := by
  have ha := C7_lease_lifecycle.1 envProxyFail {} profileP1 emptyWorld proxyCfg0
    "/usr/bin/chromium" "could not listen" rfl rfl (by decide) rfl
  have hb := C7_lease_lifecycle.2.1 envSpawnFail {} profileP1 emptyWorld proxyCfg0
    "/usr/bin/chromium" "http://127.0.0.1:40000" "spawn EACCES" rfl rfl
    (by decide) rfl rfl
  exact ⟨ha.1, hb.1, hb.2.1⟩

/-! Claim C10: the alternative close paths never touch the descriptor or
the CDP connection. -/

/-- C10: `closeBrowser` on a tracked profile kills the process, releases
the associated lease, removes the registry entry and returns true, while
the lock file state is unchanged and the trace contains neither a CDP close
nor a descriptor deletion; `closeAllBrowsers` clears the registry and also
never deletes a descriptor or closes a CDP connection; consequently, right
after a successful fresh launch, `closeBrowser` succeeds and the descriptor
written at launch still exists on disk. -/
theorem C10_alt_close_paths :
    (∀ (cenv : CloseEnv) (id : String) (w : World) (entry : RegEntry),
      regLookup w.registry id = some entry → cenv.killOk = true →
      (closeBrowser cenv id w).fst = true ∧
      regLookup (closeBrowser cenv id w).snd.fst.registry id = none ∧
      (closeBrowser cenv id w).snd.fst.lock = w.lock ∧
      Effect.cdpClose ∉ (closeBrowser cenv id w).snd.snd ∧
      Effect.deleteLock ∉ (closeBrowser cenv id w).snd.snd ∧
      Effect.killProcess entry.pid ∈ (closeBrowser cenv id w).snd.snd ∧
      (∀ u, entry.proxyUrl = some u →
        Effect.releaseProxyLease u ∈ (closeBrowser cenv id w).snd.snd)) ∧
    (∀ (cenv : CloseEnv) (w : World),
      (closeAllBrowsers cenv w).fst.registry = [] ∧
      (closeAllBrowsers cenv w).fst.lock = w.lock ∧
      Effect.cdpClose ∉ (closeAllBrowsers cenv w).snd ∧
      Effect.deleteLock ∉ (closeAllBrowsers cenv w).snd) ∧
    (∀ (cenv : CloseEnv) (env : Env) (opts : LaunchOpts)
      (profile : StoredProfile) (w : World) (cp : String) (proc : ChromeProc)
      (i : Nat) (ws : String),
      cenv.killOk = true → w.lock = .absent →
      getChromePath env.fsExists env.envChromium env.envChrome env.osKind
        env.homedir opts.chromePath = .ok cp →
      profile.proxy = none → env.spawnResult = .ok proc →
      findAttempt env.cdpConnectOk cdpMaxRetries 0 = some i →
      findProbe env.wsProbe wsMaxRetries 0 = some ws → env.writeOk = true →
      (closeBrowser cenv profile.id
        (launchChrome env opts profile w).world).fst = true ∧
      (closeBrowser cenv profile.id
        (launchChrome env opts profile w).world).snd.fst.lock =
        .valid ⟨proc.pid, proc.port, ws, env.now, none⟩) := by
  refine ⟨closeBrowser_facts, ?_, ?_⟩
  · intro cenv w
    have hf := closeAllStep_fold cenv w.registry w []
    refine ⟨rfl, hf.1, ?_, ?_⟩
    · intro hx
      rcases hf.2.2 _ hx with h | ⟨pid, h⟩ | ⟨u, h⟩
      · exact List.not_mem_nil _ h
      · exact Effect.noConfusion h
      · exact Effect.noConfusion h
    · intro hx
      rcases hf.2.2 _ hx with h | ⟨pid, h⟩ | ⟨u, h⟩
      · exact List.not_mem_nil _ h
      · exact Effect.noConfusion h
      · exact Effect.noConfusion h
  · intro cenv env opts profile w cp proc i ws hkill hlock hcp hpx hsp hcdp hws hwr
    have l1 : launchChrome env opts profile w = launchFresh env opts profile w := by
      simp [launchChrome, hlock, readLockFile]
    have e1 := launchFresh_ok_noProxy env opts profile w cp proc i ws hcp hpx
      hsp hcdp hws hwr
    have hlook : regLookup (launchChrome env opts profile w).world.registry
        profile.id = some ⟨proc.pid, none⟩ := by
      rw [l1, e1]
      exact regLookup_put _ _ _
    have hc := closeBrowser_facts cenv profile.id
      (launchChrome env opts profile w).world ⟨proc.pid, none⟩ hlook hkill
    refine ⟨hc.1, ?_⟩
    rw [hc.2.2.1, l1, e1]

/-- C10 witness: closing the running proxied session leaves its descriptor
in place, and right after a concrete fresh launch the descriptor written at
launch survives `closeBrowser`. -/
theorem C10_alt_close_paths_w :
    (closeBrowser {} "p1" worldRunning).fst = true ∧
    (closeBrowser {} "p1" worldRunning).snd.fst.lock = worldRunning.lock ∧
    Effect.deleteLock ∉ (closeBrowser {} "p1" worldRunning).snd.snd ∧
    (closeBrowser {} "p1"
      (launchChrome envOk {} profileNoProxy emptyWorld).world).snd.fst.lock =
      .valid ⟨7, 9222, "ws://127.0.0.1:9222/devtools/browser/abc", 1000, none⟩ := by
  have h1 := C10_alt_close_paths.1 {} "p1" worldRunning
    ⟨7, some "http://127.0.0.1:40000"⟩ rfl rfl
  have h3 := C10_alt_close_paths.2.2 {} envOk {} profileNoProxy emptyWorld
    "/usr/bin/chromium" ⟨7, 9222⟩ 0 "ws://127.0.0.1:9222/devtools/browser/abc"
    rfl rfl (by decide) rfl rfl rfl rfl rfl
  exact ⟨h1.1, h1.2.2.1, h1.2.2.2.2.1, h3.2⟩

/-! Claim C8: the lock file protocol fails open. -/

/-- C8: `readLockFile` returns none on an absent, unreadable or malformed
file and the parsed descriptor on a valid one, and is total (every
exception of the source is caught inside it); `deleteLockFile` is total and
idempotent, deleting an absent file is not an error, and when the unlink
succeeds the file is gone. -/
theorem C8_lock_protocol_fails_open :
    readLockFile .absent = none ∧
    readLockFile .unreadable = none ∧
    readLockFile .malformed = none ∧
    (∀ info, readLockFile (.valid info) = some info) ∧
    (∀ unlinkOk, deleteLockFile unlinkOk .absent = .absent) ∧
    (∀ unlinkOk s, deleteLockFile unlinkOk (deleteLockFile unlinkOk s) =
      deleteLockFile unlinkOk s) ∧
    (∀ s, deleteLockFile true s = .absent) := by
  refine ⟨rfl, rfl, rfl, fun _ => rfl, fun unlinkOk => ?_, deleteLockFile_idem,
    deleteLockFile_true⟩
  cases unlinkOk <;> rfl

/-! Claim C9: browser executable resolution. -/

/-- C9 counterexample: with CHROMIUM_PATH set to a path that does not exist
and CHROME_PATH set to a path that does exist, the claimed candidate order
(override, CHROMIUM_PATH, CHROME_PATH, platform defaults, first existing
wins) would return the CHROME_PATH value, but `getChromePath` computes
`CHROMIUM_PATH || CHROME_PATH` first, finds the result missing, skips
CHROME_PATH entirely and fails with the Chrome-not-found error. -/
theorem C9_cex :
    getChromePath (fun s => s == "/opt/real-chrome") (some "/opt/missing-chromium")
      (some "/opt/real-chrome") .other "/home/u" none = .error () ∧
    getChromePathSpec (fun s => s == "/opt/real-chrome") (some "/opt/missing-chromium")
      (some "/opt/real-chrome") .other "/home/u" none = .ok "/opt/real-chrome" := by
  exact ⟨rfl, rfl⟩

/-- C9 amended: resolution returns the first existing candidate among the
truthy explicit override, the single environment value
CHROMIUM_PATH-else-CHROME_PATH (CHROME_PATH is consulted only when
CHROMIUM_PATH is unset or empty, so a set-but-nonexistent CHROMIUM_PATH
masks CHROME_PATH), and the platform-specific well-known locations; it
fails with the Chrome-not-found error when none of those exists. -/
theorem C9_amended (fsEx : String → Bool) (envChromium envChrome : Option String)
    (k : OSKind) (home : String) (customPath : Option String) :
    getChromePath fsEx envChromium envChrome k home customPath =
      match ((truthyToList customPath) ++ (jsOr envChromium envChrome).toList ++
          platformChromePaths k home).find? fsEx with
      | some p => .ok p
      | none => .error () := by
  have hplat :
      getChromePathPlatform fsEx k home =
        (match (platformChromePaths k home).find? fsEx with
          | some p => Except.ok p
          | none => Except.error ()) := rfl
  have htail :
      (match jsOr envChromium envChrome with
        | some e => if fsEx e then Except.ok e else getChromePathPlatform fsEx k home
        | none => getChromePathPlatform fsEx k home) =
      (match ((jsOr envChromium envChrome).toList ++
          platformChromePaths k home).find? fsEx with
        | some p => Except.ok p
        | none => Except.error ()) := by
    cases hj : jsOr envChromium envChrome with
    | none => simpa using hplat
    | some e =>
      by_cases hf : fsEx e = true
      · simp [List.find?_cons, hf]
      · have hf2 : fsEx e = false := Bool.of_not_eq_true hf
        simp [List.find?_cons, hf2, hplat]
  cases customPath with
  | none =>
    simpa [getChromePath, truthyToList, strTruthy] using htail
  | some c =>
    by_cases hc : c = ""
    · subst hc
      simpa [getChromePath, truthyToList, strTruthy] using htail
    · by_cases hf : fsEx c = true
      · simp [getChromePath, truthyToList, strTruthy, hc, hf, List.find?_cons]
      · have hf2 : fsEx c = false := Bool.of_not_eq_true hf
        simpa [getChromePath, truthyToList, strTruthy, hc, hf2, List.find?_cons]
          using htail

end BProfiles
